import Mathlib

/-!
Verification of the proctoring session state machine in `app3.py`
(`ProctoringSession`): registration, periodic face/phone model scheduling,
identity verification, attention scoring, and debounce/alert logic.

Numbers are modelled as exact rationals (`ℚ`).  The external collaborators
(frame decoder, face model, phone model) are modelled as per-call oracle
inputs: decoding either succeeds or fails, and each model either returns a
result or raises (`Except Unit`).  The square root used by
`np.linalg.norm` is irrational over `ℚ`, so it is passed in as an abstract
function `sqrt : ℚ → ℚ`; the dot product, normalisation and division
structure of the cosine similarity are translated literally.
-/

namespace Proctoring

/-- `AUTHORIZED_THRESHOLD = 0.4` in `app3.py`. -/
def AUTHORIZED_THRESHOLD : ℚ := 4/10

/-- `FOCUS_ALERT_TIME = 3.0` in `app3.py`. -/
def FOCUS_ALERT_TIME : ℚ := 3

/-- `PHONE_ALERT_SECONDS = 1.0` in `app3.py`. -/
def PHONE_ALERT_SECONDS : ℚ := 1

/-- `FOCUS_THRESHOLD = 60.0` in `app3.py`. -/
def FOCUS_THRESHOLD : ℚ := 60

/-- `FACE_CHECK_INTERVAL = 5.0` in `app3.py`. -/
def FACE_CHECK_INTERVAL : ℚ := 5

/-- `PHONE_CHECK_INTERVAL = 2.5` in `app3.py`. -/
def PHONE_CHECK_INTERVAL : ℚ := 5/2

/-- `W_FACE = 0.40` in `app3.py`. -/
def W_FACE : ℚ := 4/10

/-- `W_HEAD = 0.50` in `app3.py`. -/
def W_HEAD : ℚ := 5/10

/-- `W_PHONE = 0.10` in `app3.py`. -/
def W_PHONE : ℚ := 1/10

/-- Bounding box `(x0, y0, x1, y1)` of a detected face
(`face.bbox[0..3]` in `app3.py`). -/
structure BBox where
  x0 : ℚ
  y0 : ℚ
  x1 : ℚ
  y1 : ℚ
deriving Repr, DecidableEq

/-- A detected face as exposed by the face model: embedding vector,
optional keypoint list (`face.kps`), bounding box (`face.bbox`). -/
structure DetectedFace where
  embedding : List ℚ
  kps : Option (List (ℚ × ℚ))
  bbox : BBox
deriving Repr, DecidableEq

/-- An event dictionary returned by `process_frame`.  Each optional field
models the presence or absence of the corresponding dictionary key. -/
structure Event where
  event : String
  timestamp : Option ℚ := none
  count : Option Nat := none
  similarity : Option ℚ := none
  score : Option Int := none
  message : Option String := none
deriving Repr, DecidableEq

/-- `{"event": "ERROR", "message": msg}` — note: no timestamp key. -/
def errorEvent (msg : String) : Event :=
  { event := "ERROR", message := some msg }

/-- `{"event": "FACE_NOT_FOUND", "timestamp": now}`. -/
def faceNotFoundEvent (now : ℚ) : Event :=
  { event := "FACE_NOT_FOUND", timestamp := some now }

/-- `{"event": "MULTIPLE_FACES", "count": n, "timestamp": now}`. -/
def multipleFacesEvent (n : Nat) (now : ℚ) : Event :=
  { event := "MULTIPLE_FACES", count := some n, timestamp := some now }

/-- `{"event": "UNAUTHORIZED_PERSON", "similarity": sim, "timestamp": now}`. -/
def unauthorizedEvent (sim now : ℚ) : Event :=
  { event := "UNAUTHORIZED_PERSON", similarity := some sim, timestamp := some now }

/-- `{"event": "PHONE_DETECTED", "timestamp": now}`. -/
def phoneDetectedEvent (now : ℚ) : Event :=
  { event := "PHONE_DETECTED", timestamp := some now }

/-- `{"event": "LOOKING_AWAY", "score": s, "timestamp": now}`. -/
def lookingAwayEvent (s : Int) (now : ℚ) : Event :=
  { event := "LOOKING_AWAY", score := some s, timestamp := some now }

/-- The mutable state of a `ProctoringSession` (the fields set in
`__init__` of `app3.py`). -/
structure SessionState where
  ref_embedding : Option (List ℚ)
  last_face_check_time : ℚ
  last_faces : List DetectedFace
  last_authorized : Bool
  last_phone_check_time : ℚ
  last_phone_present : Bool
  phone_presence_start_time : Option ℚ
  distracted_start_time : Option ℚ
deriving Repr, DecidableEq

deriving instance DecidableEq for Except

/-- The per-call oracle input to `process_frame`: whether `_decode_frame`
returns a frame, the wall-clock `time.time()` value, and the outcome of
each model invocation should it be performed (`.error` models the model
raising an exception). -/
structure FrameInput where
  decode_ok : Bool
  now : ℚ
  faceResult : Except Unit (List DetectedFace)
  phoneResult : Except Unit Bool
deriving Repr, DecidableEq

/-- The per-call oracle input to `register_user_from_frame`. -/
structure RegisterInput where
  decode_ok : Bool
  now : ℚ
  faceResult : Except Unit (List DetectedFace)
deriving Repr, DecidableEq

/-- `np.dot` on two vectors. -/
def np_dot (a b : List ℚ) : ℚ := (List.zipWith (fun x y => x * y) a b).sum

/-- `np.linalg.norm` of a vector: the square root of its dot product with
itself; the square root itself is the abstract parameter `sqrt`. -/
def np_norm (sqrt : ℚ → ℚ) (a : List ℚ) : ℚ := sqrt (np_dot a a)

/-- The cosine similarity computed on the single-face path of
`process_frame`:
`np.dot(ref, emb) / (np.linalg.norm(ref) * np.linalg.norm(emb))`. -/
def cosine_sim (sqrt : ℚ → ℚ) (ref emb : List ℚ) : ℚ :=
  np_dot ref emb / (np_norm sqrt ref * np_norm sqrt emb)

/-- Python `int()` truncation toward zero on a rational. -/
def int_trunc (q : ℚ) : Int := q.num / (q.den : Int)

/-- `_compute_head_score` of `app3.py`, translated literally over `ℚ`
(`1e-6` guards become `1/1000000`;
`HORIZ_THRESHOLD, VERT_THRESHOLD = 0.35, 0.25`;
`SEVERE_HORIZ, SEVERE_VERT = 0.5, 0.4`). -/
def compute_head_score (face : DetectedFace) : ℚ :=
  match face.kps with
  | none => 0
  | some kps =>
    match kps with
    | left_eye :: right_eye :: nose :: _ =>
      let eye_distance := max (right_eye.1 - left_eye.1) (1/1000000)
      let nose_center_offset := (nose.1 - (left_eye.1 + right_eye.1) / 2) / eye_distance
      let face_height := max (face.bbox.y1 - face.bbox.y0) (1/1000000)
      let eye_y_avg := (left_eye.2 + right_eye.2) / 2
      let vert_offset := (nose.2 - eye_y_avg) / face_height
      let horiz_score := max 0 (1 - |nose_center_offset| / (35/100))
      let vert_score := max 0 (1 - |vert_offset| / (25/100))
      let base := (horiz_score + vert_score) / 2
      let afterSevere :=
        if |nose_center_offset| > 1/2 ∨ |vert_offset| > 2/5 then base * (3/10) else base
      if |nose_center_offset| < (35/100)/2 ∧ |vert_offset| < (25/100)/2 then
        min 1 (afterSevere * (12/10))
      else afterSevere
    | _ => 0

/-- Section 1 of `process_frame` ("Face Detection (Runs periodically)").
Mirrors the mutation order of the Python code: `last_face_check_time` is
updated before the face model is invoked, and `last_faces` is replaced
before the similarity is computed, so an exception (`.error`) carries the
partially updated state.  A similarity computation with
`ref_embedding = None` raises (`np.dot(None, …)`), hence `.error`. -/
def face_section (sqrt : ℚ → ℚ) (st : SessionState) (now : ℚ)
    (faceResult : Except Unit (List DetectedFace)) :
    Except SessionState (SessionState × List Event) :=
  if now - st.last_face_check_time ≥ FACE_CHECK_INTERVAL then
    match faceResult with
    | .error _ => .error { st with last_face_check_time := now }
    | .ok faces =>
      match faces with
      | [] =>
        .ok ({ st with last_face_check_time := now, last_faces := [],
                       last_authorized := false }, [faceNotFoundEvent now])
      | [f] =>
        match st.ref_embedding with
        | none => .error { st with last_face_check_time := now, last_faces := [f] }
        | some ref =>
          let sim := cosine_sim sqrt ref f.embedding
          if sim ≤ AUTHORIZED_THRESHOLD then
            .ok ({ st with last_face_check_time := now, last_faces := [f],
                           last_authorized := false }, [unauthorizedEvent sim now])
          else
            .ok ({ st with last_face_check_time := now, last_faces := [f],
                           last_authorized := true }, [])
      | f1 :: f2 :: rest =>
        .ok ({ st with last_face_check_time := now, last_faces := f1 :: f2 :: rest,
                       last_authorized := false },
             [multipleFacesEvent (f1 :: f2 :: rest).length now])
  else .ok (st, [])

/-- Section 2 of `process_frame` ("Phone Detection (Runs periodically)").
`last_phone_check_time` is updated before the phone model is invoked, so a
model exception carries that update. -/
def phone_section (st : SessionState) (now : ℚ)
    (phoneResult : Except Unit Bool) : Except SessionState SessionState :=
  if now - st.last_phone_check_time ≥ PHONE_CHECK_INTERVAL then
    match phoneResult with
    | .error _ => .error { st with last_phone_check_time := now }
    | .ok phone_present =>
      .ok { st with last_phone_check_time := now, last_phone_present := phone_present }
  else .ok st

/-- The phone debounce block of `process_frame` (`if phone_present: …`). -/
def phone_alert (st : SessionState) (now : ℚ) : SessionState × List Event :=
  if st.last_phone_present then
    match st.phone_presence_start_time with
    | none => ({ st with phone_presence_start_time := some now }, [])
    | some start =>
      if now - start ≥ PHONE_ALERT_SECONDS then (st, [phoneDetectedEvent now])
      else (st, [])
  else ({ st with phone_presence_start_time := none }, [])

/-- Section 3 of `process_frame` ("Focus & Attention Scoring"), computed
from the cached state. -/
def attention_score (st : SessionState) : ℚ :=
  let face_present := st.last_faces.length = 1
  let authorized := st.last_authorized = true
  let head_score : ℚ :=
    if face_present ∧ authorized then
      match st.last_faces with
      | f :: _ => compute_head_score f
      | [] => 0
    else 0
  let face_score : ℚ := if face_present ∧ authorized then 1 else 0
  let phone_pen : ℚ := if st.last_phone_present then 1 else 0
  if ¬face_present ∨ ¬authorized then 0
  else
    let base_score := (W_FACE * face_score + W_HEAD * head_score + W_PHONE * (1 - phone_pen)) /
      (W_FACE + W_HEAD + W_PHONE)
    let s := base_score * 100
    if head_score > 8/10 then min 100 (s * (11/10)) else s

/-- Section 4 of `process_frame` ("Distraction Alert Logic"). -/
def distraction_alert (st : SessionState) (now att : ℚ) : SessionState × List Event :=
  if att < FOCUS_THRESHOLD ∧ st.last_authorized = true then
    match st.distracted_start_time with
    | none => ({ st with distracted_start_time := some now }, [])
    | some start =>
      if now - start ≥ FOCUS_ALERT_TIME then (st, [lookingAwayEvent (int_trunc att) now])
      else (st, [])
  else ({ st with distracted_start_time := none }, [])

/-- The body of `process_frame` inside the `try`: an `.error` result
models an uncaught exception, carrying the session state as mutated up to
the point where the exception was raised. -/
def process_frame_body (sqrt : ℚ → ℚ) (st : SessionState) (inp : FrameInput) :
    Except SessionState (List Event × SessionState) :=
  if inp.decode_ok = false then
    .ok ([errorEvent "Invalid frame data."], st)
  else
    match face_section sqrt st inp.now inp.faceResult with
    | .error st1 => .error st1
    | .ok (st1, events) =>
      match phone_section st1 inp.now inp.phoneResult with
      | .error st2 => .error st2
      | .ok st2 =>
        let pa := phone_alert st2 inp.now
        let att := attention_score pa.1
        let da := distraction_alert pa.1 inp.now att
        .ok (events ++ pa.2 ++ da.2, da.1)

/-- `process_frame` of `app3.py`: the `try/except` wrapper around the
body.  An exception yields the single generic `ERROR` event, and the
session keeps whatever state it had when the exception was raised. -/
def process_frame (sqrt : ℚ → ℚ) (st : SessionState) (inp : FrameInput) :
    List Event × SessionState :=
  match process_frame_body sqrt st inp with
  | .ok r => r
  | .error st1 => ([errorEvent "An internal error occurred."], st1)

/-- `register_user_from_frame` of `app3.py`.  Returns the Python
`(success, message)` pair together with the session state after the call.
A face-model exception is caught by the `except` and reported as the
generic failure message; no state has been mutated at that point. -/
def register_user_from_frame (st : SessionState) (inp : RegisterInput) :
    (Bool × String) × SessionState :=
  match st.ref_embedding with
  | some _ => ((false, "User is already registered."), st)
  | none =>
    if inp.decode_ok = false then ((false, "Invalid image data."), st)
    else
      match inp.faceResult with
      | .error _ => ((false, "An internal error occurred."), st)
      | .ok faces =>
        match faces with
        | [] => ((false, "No face found in registration frame."), st)
        | [f] =>
          (((true, "User registered successfully."),
            { st with
              ref_embedding := some f.embedding
              last_faces := faces
              last_authorized := true
              last_face_check_time := inp.now
              last_phone_check_time := inp.now }))
        | _ => ((false, "Multiple faces found. Only one person allowed."), st)


def id_sqrt : ℚ → ℚ := fun q => q

def centeredFace : DetectedFace :=
  { embedding := [1], kps := some [(0, 0), (2, 0), (1, 0)],
    bbox := { x0 := 0, y0 := 0, x1 := 2, y1 := 1 } }

def distractedFace : DetectedFace :=
  { embedding := [1], kps := some [(0, 0), (2, 0), (10, 5)],
    bbox := { x0 := 0, y0 := 0, x1 := 2, y1 := 1 } }

def registeredState : SessionState :=
  { ref_embedding := some [1], last_face_check_time := 0, last_faces := [centeredFace],
    last_authorized := true, last_phone_check_time := 0, last_phone_present := false,
    phone_presence_start_time := none, distracted_start_time := none }

def unregisteredState : SessionState := { registeredState with ref_embedding := none }

def phoneArmedState : SessionState :=
  { registeredState with
    last_face_check_time := 10, last_phone_check_time := 10,
    last_phone_present := true, phone_presence_start_time := some 10 }

def distractedState : SessionState :=
  { registeredState with
    last_faces := [distractedFace], last_face_check_time := 10,
    last_phone_check_time := 10, distracted_start_time := some 5 }

def okFrame : FrameInput :=
  { decode_ok := true, now := 10, faceResult := .ok [centeredFace], phoneResult := .ok false }

def laterFrame : FrameInput :=
  { decode_ok := true, now := 11, faceResult := .ok [centeredFace], phoneResult := .ok false }

def noFaceFrame : FrameInput :=
  { decode_ok := true, now := 10, faceResult := .ok [], phoneResult := .ok false }

def badDecodeFrame : FrameInput :=
  { decode_ok := false, now := 10, faceResult := .ok [], phoneResult := .ok false }

def faceFailFrame : FrameInput :=
  { decode_ok := true, now := 10, faceResult := .error (), phoneResult := .ok false }

def regFrame : RegisterInput :=
  { decode_ok := true, now := 5, faceResult := .ok [centeredFace] }

lemma face_section_fields (sqrt : ℚ → ℚ) (st : SessionState) (now : ℚ)
    (fr : Except Unit (List DetectedFace)) (st1 : SessionState) (evs1 : List Event)
    (h : face_section sqrt st now fr = .ok (st1, evs1)) :
    st1.ref_embedding = st.ref_embedding ∧
    st1.last_phone_check_time = st.last_phone_check_time ∧
    st1.last_phone_present = st.last_phone_present ∧
    st1.phone_presence_start_time = st.phone_presence_start_time ∧
    st1.distracted_start_time = st.distracted_start_time := by
  unfold face_section at h
  by_cases hc : now - st.last_face_check_time ≥ FACE_CHECK_INTERVAL
  · rw [if_pos hc] at h
    cases fr with
    | error e => cases h
    | ok faces =>
      cases faces with
      | nil => cases h; exact ⟨rfl, rfl, rfl, rfl, rfl⟩
      | cons f rest =>
        cases rest with
        | nil =>
          cases href : st.ref_embedding with
          | none => rw [href] at h; cases h
          | some ref =>
            rw [href] at h
            dsimp only at h
            split at h <;> (cases h; exact ⟨rfl, rfl, rfl, rfl, rfl⟩)
        | cons f2 rest2 => cases h; exact ⟨rfl, rfl, rfl, rfl, rfl⟩
  · rw [if_neg hc] at h; cases h; exact ⟨rfl, rfl, rfl, rfl, rfl⟩

lemma face_section_skip (sqrt : ℚ → ℚ) (st : SessionState) (now : ℚ)
    (fr : Except Unit (List DetectedFace))
    (h : now - st.last_face_check_time < FACE_CHECK_INTERVAL) :
    face_section sqrt st now fr = .ok (st, []) := by
  unfold face_section
  rw [if_neg (not_le.mpr h)]

lemma phone_section_skip (st : SessionState) (now : ℚ)
    (pr : Except Unit Bool)
    (h : now - st.last_phone_check_time < PHONE_CHECK_INTERVAL) :
    phone_section st now pr = .ok st := by
  unfold phone_section
  rw [if_neg (not_le.mpr h)]

lemma phone_section_ok (st : SessionState) (now : ℚ) (pb : Bool) :
    phone_section st now (.ok pb) =
      .ok (if now - st.last_phone_check_time ≥ PHONE_CHECK_INTERVAL
           then { st with last_phone_check_time := now, last_phone_present := pb }
           else st) := by
  unfold phone_section
  split <;> rfl

lemma phone_section_fields (st : SessionState) (now : ℚ)
    (pr : Except Unit Bool) (st2 : SessionState)
    (h : phone_section st now pr = .ok st2) :
    st2.ref_embedding = st.ref_embedding ∧
    st2.last_face_check_time = st.last_face_check_time ∧
    st2.last_faces = st.last_faces ∧
    st2.last_authorized = st.last_authorized ∧
    st2.phone_presence_start_time = st.phone_presence_start_time ∧
    st2.distracted_start_time = st.distracted_start_time := by
  unfold phone_section at h
  by_cases hc : now - st.last_phone_check_time ≥ PHONE_CHECK_INTERVAL
  · rw [if_pos hc] at h
    cases pr with
    | error e => cases h
    | ok pb => cases h; exact ⟨rfl, rfl, rfl, rfl, rfl, rfl⟩
  · rw [if_neg hc] at h; cases h; exact ⟨rfl, rfl, rfl, rfl, rfl, rfl⟩

lemma phone_alert_fields (st : SessionState) (now : ℚ) :
    (phone_alert st now).1.ref_embedding = st.ref_embedding ∧
    (phone_alert st now).1.last_face_check_time = st.last_face_check_time ∧
    (phone_alert st now).1.last_faces = st.last_faces ∧
    (phone_alert st now).1.last_authorized = st.last_authorized ∧
    (phone_alert st now).1.last_phone_check_time = st.last_phone_check_time ∧
    (phone_alert st now).1.last_phone_present = st.last_phone_present ∧
    (phone_alert st now).1.distracted_start_time = st.distracted_start_time := by
  unfold phone_alert
  split
  · split
    · exact ⟨rfl, rfl, rfl, rfl, rfl, rfl, rfl⟩
    · split <;> exact ⟨rfl, rfl, rfl, rfl, rfl, rfl, rfl⟩
  · exact ⟨rfl, rfl, rfl, rfl, rfl, rfl, rfl⟩

lemma phone_alert_events (st : SessionState) (now : ℚ) :
    ∀ e ∈ (phone_alert st now).2, e = phoneDetectedEvent now := by
  unfold phone_alert
  split
  · split
    · intro e he; cases he
    · split
      · intro e he; cases he with
        | head => rfl
        | tail _ h2 => cases h2
      · intro e he; cases he
  · intro e he; cases he

lemma distraction_alert_fields (st : SessionState) (now att : ℚ) :
    (distraction_alert st now att).1.ref_embedding = st.ref_embedding ∧
    (distraction_alert st now att).1.last_face_check_time = st.last_face_check_time ∧
    (distraction_alert st now att).1.last_faces = st.last_faces ∧
    (distraction_alert st now att).1.last_authorized = st.last_authorized ∧
    (distraction_alert st now att).1.last_phone_check_time = st.last_phone_check_time ∧
    (distraction_alert st now att).1.last_phone_present = st.last_phone_present ∧
    (distraction_alert st now att).1.phone_presence_start_time = st.phone_presence_start_time := by
  unfold distraction_alert
  split
  · split
    · exact ⟨rfl, rfl, rfl, rfl, rfl, rfl, rfl⟩
    · split <;> exact ⟨rfl, rfl, rfl, rfl, rfl, rfl, rfl⟩
  · exact ⟨rfl, rfl, rfl, rfl, rfl, rfl, rfl⟩

lemma distraction_alert_events (st : SessionState) (now att : ℚ) :
    ∀ e ∈ (distraction_alert st now att).2, e = lookingAwayEvent (int_trunc att) now := by
  unfold distraction_alert
  split
  · split
    · intro e he; cases he
    · split
      · intro e he; cases he with
        | head => rfl
        | tail _ h2 => cases h2
      · intro e he; cases he
  · intro e he; cases he

lemma attention_score_congr (st st' : SessionState)
    (h1 : st'.last_faces = st.last_faces)
    (h2 : st'.last_authorized = st.last_authorized)
    (h3 : st'.last_phone_present = st.last_phone_present) :
    attention_score st' = attention_score st := by
  unfold attention_score
  rw [h1, h2, h3]

lemma process_frame_decomp (sqrt : ℚ → ℚ) (st : SessionState) (inp : FrameInput)
    (st1 st2 : SessionState) (evs1 : List Event)
    (hdec : inp.decode_ok = true)
    (hface : face_section sqrt st inp.now inp.faceResult = .ok (st1, evs1))
    (hphone : phone_section st1 inp.now inp.phoneResult = .ok st2) :
    process_frame sqrt st inp =
      (evs1 ++ (phone_alert st2 inp.now).2 ++
         (distraction_alert (phone_alert st2 inp.now).1 inp.now
           (attention_score (phone_alert st2 inp.now).1)).2,
       (distraction_alert (phone_alert st2 inp.now).1 inp.now
           (attention_score (phone_alert st2 inp.now).1)).1) := by
  unfold process_frame process_frame_body
  rw [hdec, hface]
  dsimp only
  rw [hphone]
  rfl

lemma process_frame_decode_fail (sqrt : ℚ → ℚ) (st : SessionState) (inp : FrameInput)
    (hdec : inp.decode_ok = false) :
    process_frame sqrt st inp = ([errorEvent "Invalid frame data."], st) := by
  unfold process_frame process_frame_body
  rw [hdec]
  rfl

lemma process_frame_of_error (sqrt : ℚ → ℚ) (st : SessionState) (inp : FrameInput)
    (st1 : SessionState)
    (h : process_frame_body sqrt st inp = .error st1) :
    process_frame sqrt st inp = ([errorEvent "An internal error occurred."], st1) := by
  unfold process_frame
  rw [h]

lemma face_section_model_error (sqrt : ℚ → ℚ) (st : SessionState) (now : ℚ) (e : Unit)
    (hc : now - st.last_face_check_time ≥ FACE_CHECK_INTERVAL) :
    face_section sqrt st now (.error e) =
      .error { st with last_face_check_time := now } := by
  unfold face_section
  rw [if_pos hc]

lemma face_section_no_faces (sqrt : ℚ → ℚ) (st : SessionState) (now : ℚ)
    (hc : now - st.last_face_check_time ≥ FACE_CHECK_INTERVAL) :
    face_section sqrt st now (.ok []) =
      .ok ({ st with last_face_check_time := now, last_faces := [],
                     last_authorized := false }, [faceNotFoundEvent now]) := by
  unfold face_section
  rw [if_pos hc]

lemma face_section_multiple_faces (sqrt : ℚ → ℚ) (st : SessionState) (now : ℚ)
    (f1 f2 : DetectedFace) (rest : List DetectedFace)
    (hc : now - st.last_face_check_time ≥ FACE_CHECK_INTERVAL) :
    face_section sqrt st now (.ok (f1 :: f2 :: rest)) =
      .ok ({ st with last_face_check_time := now, last_faces := f1 :: f2 :: rest,
                     last_authorized := false },
           [multipleFacesEvent (f1 :: f2 :: rest).length now]) := by
  unfold face_section
  rw [if_pos hc]

lemma face_section_one_face (sqrt : ℚ → ℚ) (st : SessionState) (now : ℚ)
    (f : DetectedFace) (ref : List ℚ)
    (hc : now - st.last_face_check_time ≥ FACE_CHECK_INTERVAL)
    (href : st.ref_embedding = some ref) :
    face_section sqrt st now (.ok [f]) =
      (if cosine_sim sqrt ref f.embedding ≤ AUTHORIZED_THRESHOLD then
        .ok ({ st with last_face_check_time := now, last_faces := [f],
                       last_authorized := false },
             [unauthorizedEvent (cosine_sim sqrt ref f.embedding) now])
      else
        .ok ({ st with last_face_check_time := now, last_faces := [f],
                       last_authorized := true }, [])) := by
  unfold face_section
  rw [if_pos hc]
  dsimp only
  rw [href]

lemma face_section_one_face_noref (sqrt : ℚ → ℚ) (st : SessionState) (now : ℚ)
    (f : DetectedFace)
    (hc : now - st.last_face_check_time ≥ FACE_CHECK_INTERVAL)
    (href : st.ref_embedding = none) :
    face_section sqrt st now (.ok [f]) =
      .error { st with last_face_check_time := now, last_faces := [f] } := by
  unfold face_section
  rw [if_pos hc]
  dsimp only
  rw [href]

lemma face_section_events (sqrt : ℚ → ℚ) (st : SessionState) (now : ℚ)
    (fr : Except Unit (List DetectedFace)) (st1 : SessionState) (evs1 : List Event)
    (h : face_section sqrt st now fr = .ok (st1, evs1)) :
    ∀ e ∈ evs1, (e.event = "FACE_NOT_FOUND" ∨ e.event = "MULTIPLE_FACES" ∨
      e.event = "UNAUTHORIZED_PERSON") ∧ e.timestamp = some now := by
  unfold face_section at h
  by_cases hc : now - st.last_face_check_time ≥ FACE_CHECK_INTERVAL
  · rw [if_pos hc] at h
    cases fr with
    | error e => cases h
    | ok faces =>
      cases faces with
      | nil =>
        cases h
        intro e he
        cases he with
        | head => exact ⟨Or.inl rfl, rfl⟩
        | tail _ h2 => cases h2
      | cons f rest =>
        cases rest with
        | nil =>
          cases href : st.ref_embedding with
          | none => rw [href] at h; cases h
          | some ref =>
            rw [href] at h
            dsimp only at h
            split at h
            · cases h
              intro e he
              cases he with
              | head => exact ⟨Or.inr (Or.inr rfl), rfl⟩
              | tail _ h2 => cases h2
            · cases h
              intro e he
              cases he
        | cons f2 rest2 =>
          cases h
          intro e he
          cases he with
          | head => exact ⟨Or.inr (Or.inl rfl), rfl⟩
          | tail _ h2 => cases h2
  · rw [if_neg hc] at h
    cases h
    intro e he
    cases he

lemma not_mem_of_event_ne (e : Event) (l : List Event) (k : String)
    (hk : ∀ x ∈ l, x.event = k) (hne : e.event ≠ k) : e ∉ l :=
  fun hm => hne (hk e hm)

lemma phone_alert_event_kind (st : SessionState) (now : ℚ) :
    ∀ x ∈ (phone_alert st now).2, x.event = "PHONE_DETECTED" := by
  intro x hx
  rw [phone_alert_events st now x hx]
  rfl

lemma distraction_alert_event_kind (st : SessionState) (now att : ℚ) :
    ∀ x ∈ (distraction_alert st now att).2, x.event = "LOOKING_AWAY" := by
  intro x hx
  rw [distraction_alert_events st now att x hx]
  rfl

/-- C5: calling `register_user_from_frame` on a session whose reference
embedding is already set returns `(False, "User is already registered.")`
and the unchanged state, for every possible input — in particular the
result does not depend on the decoder or the face model, so no model is
consulted and `ref_embedding` is never overwritten. -/
theorem c5_register_already_registered (st : SessionState) (inp : RegisterInput)
    (r : List ℚ) (h : st.ref_embedding = some r) :
    register_user_from_frame st inp = ((false, "User is already registered."), st) := by
  unfold register_user_from_frame
  rw [h]

/-- C10: calling `process_frame` before registration (reference embedding
`None`) on a frame where the face interval has elapsed and the face model
yields exactly one face returns the single generic `ERROR` event: the
similarity computation raises and is caught by the outer handler. -/
theorem c10_unregistered_single_face_error (sqrt : ℚ → ℚ) (st : SessionState)
    (inp : FrameInput) (f : DetectedFace)
    (href : st.ref_embedding = none)
    (hdec : inp.decode_ok = true)
    (hint : inp.now - st.last_face_check_time ≥ FACE_CHECK_INTERVAL)
    (hface : inp.faceResult = .ok [f]) :
    (process_frame sqrt st inp).1 = [errorEvent "An internal error occurred."] := by
  have hfs := face_section_one_face_noref sqrt st inp.now f hint href
  rw [← hface] at hfs
  have hb : process_frame_body sqrt st inp =
      .error { st with last_face_check_time := inp.now, last_faces := [f] } := by
    unfold process_frame_body
    rw [hdec, hfs]
    rfl
  rw [process_frame_of_error sqrt st inp _ hb]

/-- C2 (amended): a decode failure makes `process_frame` return exactly
one `ERROR` event and leave the session state unchanged; any exception
during processing also yields exactly one `ERROR` event, but the state
after the call is the state at the point the exception was raised — the
mutations already applied (check timestamps, cached faces) persist. -/
theorem c2_amended_error_events (sqrt : ℚ → ℚ) (st : SessionState) (inp : FrameInput) :
    (inp.decode_ok = false →
      process_frame sqrt st inp = ([errorEvent "Invalid frame data."], st)) ∧
    (∀ st1 : SessionState, process_frame_body sqrt st inp = .error st1 →
      process_frame sqrt st inp = ([errorEvent "An internal error occurred."], st1)) := by
  constructor
  · intro hdec
    exact process_frame_decode_fail sqrt st inp hdec
  · intro st1 h
    exact process_frame_of_error sqrt st inp st1 h

lemma phone_section_ok_pos (st : SessionState) (now : ℚ) (pb : Bool)
    (h : now - st.last_phone_check_time ≥ PHONE_CHECK_INTERVAL) :
    phone_section st now (.ok pb) =
      .ok { st with last_phone_check_time := now, last_phone_present := pb } := by
  unfold phone_section
  rw [if_pos h]

lemma phone_section_ok_neg (st : SessionState) (now : ℚ) (pb : Bool)
    (h : ¬ (now - st.last_phone_check_time ≥ PHONE_CHECK_INTERVAL)) :
    phone_section st now (.ok pb) = .ok st := by
  unfold phone_section
  rw [if_neg h]

/-- A full run of `process_frame` in which the face section succeeded and the
phone model returns: names the intermediate state after the phone section
and gives the final result as the alert sections applied to it. -/
lemma process_frame_run (sqrt : ℚ → ℚ) (st : SessionState) (inp : FrameInput)
    (st1 : SessionState) (evs1 : List Event) (pb : Bool)
    (hdec : inp.decode_ok = true)
    (hface : face_section sqrt st inp.now inp.faceResult = .ok (st1, evs1))
    (hphone : inp.phoneResult = .ok pb) :
    ∃ st2 : SessionState,
      st2.last_authorized = st1.last_authorized ∧
      st2.last_faces = st1.last_faces ∧
      st2.phone_presence_start_time = st1.phone_presence_start_time ∧
      st2.distracted_start_time = st1.distracted_start_time ∧
      st2.last_phone_present =
        (if inp.now - st1.last_phone_check_time ≥ PHONE_CHECK_INTERVAL
         then pb else st1.last_phone_present) ∧
      process_frame sqrt st inp =
        (evs1 ++ (phone_alert st2 inp.now).2 ++
           (distraction_alert (phone_alert st2 inp.now).1 inp.now
             (attention_score (phone_alert st2 inp.now).1)).2,
         (distraction_alert (phone_alert st2 inp.now).1 inp.now
             (attention_score (phone_alert st2 inp.now).1)).1) := by
  by_cases hp : inp.now - st1.last_phone_check_time ≥ PHONE_CHECK_INTERVAL
  · refine ⟨{ st1 with last_phone_check_time := inp.now, last_phone_present := pb },
      rfl, rfl, rfl, rfl, ?_, ?_⟩
    · rw [if_pos hp]
    · have hps := phone_section_ok_pos st1 inp.now pb hp
      rw [← hphone] at hps
      exact process_frame_decomp sqrt st inp st1 _ evs1 hdec hface hps
  · refine ⟨st1, rfl, rfl, rfl, rfl, ?_, ?_⟩
    · rw [if_neg hp]
    · have hps := phone_section_ok_neg st1 inp.now pb hp
      rw [← hphone] at hps
      exact process_frame_decomp sqrt st inp st1 _ evs1 hdec hface hps

/-- C1: on a face refresh that yields exactly one face for a registered
session, the person ends the frame authorized iff the computed cosine
similarity is strictly above `AUTHORIZED_THRESHOLD`; an
`UNAUTHORIZED_PERSON` event carrying that similarity is emitted iff the
similarity is at most the threshold, so at the boundary (similarity equal
to the threshold) the person is unauthorized, `last_authorized` is `false`
and the event is emitted. -/
theorem c1_authorization_threshold (sqrt : ℚ → ℚ) (st : SessionState) (inp : FrameInput)
    (f : DetectedFace) (ref : List ℚ) (pb : Bool)
    (hdec : inp.decode_ok = true)
    (hint : inp.now - st.last_face_check_time ≥ FACE_CHECK_INTERVAL)
    (hface : inp.faceResult = .ok [f])
    (href : st.ref_embedding = some ref)
    (hphone : inp.phoneResult = .ok pb) :
    ((process_frame sqrt st inp).2.last_authorized = true ↔
        AUTHORIZED_THRESHOLD < cosine_sim sqrt ref f.embedding) ∧
    (unauthorizedEvent (cosine_sim sqrt ref f.embedding) inp.now ∈
        (process_frame sqrt st inp).1 ↔
        cosine_sim sqrt ref f.embedding ≤ AUTHORIZED_THRESHOLD) ∧
    (cosine_sim sqrt ref f.embedding = AUTHORIZED_THRESHOLD →
        (process_frame sqrt st inp).2.last_authorized = false ∧
        unauthorizedEvent (cosine_sim sqrt ref f.embedding) inp.now ∈
          (process_frame sqrt st inp).1) := by
  have hfs0 := face_section_one_face sqrt st inp.now f ref hint href
  rw [← hface] at hfs0
  by_cases hs : cosine_sim sqrt ref f.embedding ≤ AUTHORIZED_THRESHOLD
  · rw [if_pos hs] at hfs0
    obtain ⟨st2, hauth, hfaces, hstart, hdstart, hpp, hrun⟩ :=
      process_frame_run sqrt st inp _ _ pb hdec hfs0 hphone
    rw [hrun]
    have hA : ((distraction_alert (phone_alert st2 inp.now).1 inp.now
        (attention_score (phone_alert st2 inp.now).1)).1).last_authorized
          = st2.last_authorized :=
      ((distraction_alert_fields _ _ _).2.2.2.1).trans ((phone_alert_fields _ _).2.2.2.1)
    have hmem : unauthorizedEvent (cosine_sim sqrt ref f.embedding) inp.now ∈
        ([unauthorizedEvent (cosine_sim sqrt ref f.embedding) inp.now] ++
          (phone_alert st2 inp.now).2 ++
          (distraction_alert (phone_alert st2 inp.now).1 inp.now
            (attention_score (phone_alert st2 inp.now).1)).2) :=
      List.mem_append_left _ (List.mem_append_left _ (List.mem_singleton.mpr rfl))
    refine ⟨?_, ?_, ?_⟩
    · rw [hA, hauth]
      simp only [Bool.false_eq_true, false_iff, not_lt]
      exact hs
    · exact iff_of_true hmem hs
    · intro _
      rw [hA, hauth]
      exact ⟨rfl, hmem⟩
  · rw [if_neg hs] at hfs0
    obtain ⟨st2, hauth, hfaces, hstart, hdstart, hpp, hrun⟩ :=
      process_frame_run sqrt st inp _ _ pb hdec hfs0 hphone
    rw [hrun]
    have hA : ((distraction_alert (phone_alert st2 inp.now).1 inp.now
        (attention_score (phone_alert st2 inp.now).1)).1).last_authorized
          = st2.last_authorized :=
      ((distraction_alert_fields _ _ _).2.2.2.1).trans ((phone_alert_fields _ _).2.2.2.1)
    have hnomem : unauthorizedEvent (cosine_sim sqrt ref f.embedding) inp.now ∉
        (([] : List Event) ++ (phone_alert st2 inp.now).2 ++
          (distraction_alert (phone_alert st2 inp.now).1 inp.now
            (attention_score (phone_alert st2 inp.now).1)).2) := by
      intro hm
      rcases List.mem_append.mp hm with hm1 | hm2
      · rcases List.mem_append.mp hm1 with hm0 | hmp
        · cases hm0
        · have hks : ("UNAUTHORIZED_PERSON" : String) = "PHONE_DETECTED" :=
            phone_alert_event_kind _ _ _ hmp
          exact absurd hks (by decide)
      · have hks : ("UNAUTHORIZED_PERSON" : String) = "LOOKING_AWAY" :=
          distraction_alert_event_kind _ _ _ _ hm2
        exact absurd hks (by decide)
    refine ⟨?_, ?_, ?_⟩
    · rw [hA, hauth]
      simp only [true_iff]
      exact lt_of_not_le hs
    · exact iff_of_false hnomem hs
    · intro he
      exact absurd (le_of_eq he) hs

lemma face_section_error_fields (sqrt : ℚ → ℚ) (st : SessionState) (now : ℚ)
    (fr : Except Unit (List DetectedFace)) (st1 : SessionState)
    (h : face_section sqrt st now fr = .error st1) :
    st1.ref_embedding = st.ref_embedding ∧
    st1.last_authorized = st.last_authorized ∧
    st1.last_phone_check_time = st.last_phone_check_time ∧
    st1.last_phone_present = st.last_phone_present ∧
    st1.phone_presence_start_time = st.phone_presence_start_time ∧
    st1.distracted_start_time = st.distracted_start_time := by
  unfold face_section at h
  by_cases hc : now - st.last_face_check_time ≥ FACE_CHECK_INTERVAL
  · rw [if_pos hc] at h
    cases fr with
    | error e => cases h; exact ⟨rfl, rfl, rfl, rfl, rfl, rfl⟩
    | ok faces =>
      cases faces with
      | nil => cases h
      | cons f rest =>
        cases rest with
        | nil =>
          cases href : st.ref_embedding with
          | none => rw [href] at h; cases h; exact ⟨rfl, rfl, rfl, rfl, rfl, rfl⟩
          | some ref =>
            rw [href] at h
            dsimp only at h
            split at h <;> cases h
        | cons f2 rest2 => cases h
  · rw [if_neg hc] at h; cases h

lemma phone_section_error_fields (st : SessionState) (now : ℚ)
    (pr : Except Unit Bool) (st2 : SessionState)
    (h : phone_section st now pr = .error st2) :
    st2.ref_embedding = st.ref_embedding ∧
    st2.last_face_check_time = st.last_face_check_time ∧
    st2.last_faces = st.last_faces ∧
    st2.last_authorized = st.last_authorized ∧
    st2.last_phone_present = st.last_phone_present ∧
    st2.phone_presence_start_time = st.phone_presence_start_time ∧
    st2.distracted_start_time = st.distracted_start_time := by
  unfold phone_section at h
  by_cases hc : now - st.last_phone_check_time ≥ PHONE_CHECK_INTERVAL
  · rw [if_pos hc] at h
    cases pr with
    | error e => cases h; exact ⟨rfl, rfl, rfl, rfl, rfl, rfl, rfl⟩
    | ok pb => cases h
  · rw [if_neg hc] at h; cases h

lemma process_frame_face_error (sqrt : ℚ → ℚ) (st : SessionState) (inp : FrameInput)
    (st1 : SessionState)
    (hdec : inp.decode_ok = true)
    (hf : face_section sqrt st inp.now inp.faceResult = .error st1) :
    process_frame sqrt st inp = ([errorEvent "An internal error occurred."], st1) := by
  have hb : process_frame_body sqrt st inp = .error st1 := by
    unfold process_frame_body
    rw [hdec, hf]
    rfl
  exact process_frame_of_error sqrt st inp st1 hb

lemma process_frame_phone_error (sqrt : ℚ → ℚ) (st : SessionState) (inp : FrameInput)
    (st1 st2 : SessionState) (evs1 : List Event)
    (hdec : inp.decode_ok = true)
    (hface : face_section sqrt st inp.now inp.faceResult = .ok (st1, evs1))
    (hph : phone_section st1 inp.now inp.phoneResult = .error st2) :
    process_frame sqrt st inp = ([errorEvent "An internal error occurred."], st2) := by
  have hb : process_frame_body sqrt st inp = .error st2 := by
    unfold process_frame_body
    rw [hdec, hface]
    dsimp only
    rw [hph]
    rfl
  exact process_frame_of_error sqrt st inp st2 hb

/-- C6: on a frame where the face refresh runs, zero detected faces emit
`FACE_NOT_FOUND` and more than one face emits `MULTIPLE_FACES` carrying
the exact count; in both cases `last_authorized` becomes `false` and
`last_faces` is replaced by the new detection list. -/
theorem c6_face_refresh_zero_or_many (sqrt : ℚ → ℚ) (st : SessionState)
    (inp : FrameInput) (fs : List DetectedFace) (pb : Bool)
    (hdec : inp.decode_ok = true)
    (hint : inp.now - st.last_face_check_time ≥ FACE_CHECK_INTERVAL)
    (hface : inp.faceResult = .ok fs)
    (hphone : inp.phoneResult = .ok pb) :
    (fs = [] →
      faceNotFoundEvent inp.now ∈ (process_frame sqrt st inp).1 ∧
      (process_frame sqrt st inp).2.last_authorized = false ∧
      (process_frame sqrt st inp).2.last_faces = fs) ∧
    (1 < fs.length →
      multipleFacesEvent fs.length inp.now ∈ (process_frame sqrt st inp).1 ∧
      (process_frame sqrt st inp).2.last_authorized = false ∧
      (process_frame sqrt st inp).2.last_faces = fs) := by
  constructor
  · intro hnil
    subst hnil
    have hfs0 := face_section_no_faces sqrt st inp.now hint
    rw [← hface] at hfs0
    obtain ⟨st2, hauth, hfaces, hstart, hdstart, hpp, hrun⟩ :=
      process_frame_run sqrt st inp _ _ pb hdec hfs0 hphone
    rw [hrun]
    have hA : ((distraction_alert (phone_alert st2 inp.now).1 inp.now
        (attention_score (phone_alert st2 inp.now).1)).1).last_authorized
          = st2.last_authorized :=
      ((distraction_alert_fields _ _ _).2.2.2.1).trans ((phone_alert_fields _ _).2.2.2.1)
    have hF : ((distraction_alert (phone_alert st2 inp.now).1 inp.now
        (attention_score (phone_alert st2 inp.now).1)).1).last_faces
          = st2.last_faces :=
      ((distraction_alert_fields _ _ _).2.2.1).trans ((phone_alert_fields _ _).2.2.1)
    exact ⟨List.mem_append_left _ (List.mem_append_left _ (List.mem_singleton.mpr rfl)),
      by rw [hA, hauth], by rw [hF, hfaces]⟩
  · intro hlen
    match fs, hface, hlen with
    | f1 :: f2 :: rest, hface, _ =>
      have hfs0 := face_section_multiple_faces sqrt st inp.now f1 f2 rest hint
      rw [← hface] at hfs0
      obtain ⟨st2, hauth, hfaces, hstart, hdstart, hpp, hrun⟩ :=
        process_frame_run sqrt st inp _ _ pb hdec hfs0 hphone
      rw [hrun]
      have hA : ((distraction_alert (phone_alert st2 inp.now).1 inp.now
          (attention_score (phone_alert st2 inp.now).1)).1).last_authorized
            = st2.last_authorized :=
        ((distraction_alert_fields _ _ _).2.2.2.1).trans ((phone_alert_fields _ _).2.2.2.1)
      have hF : ((distraction_alert (phone_alert st2 inp.now).1 inp.now
          (attention_score (phone_alert st2 inp.now).1)).1).last_faces
            = st2.last_faces :=
        ((distraction_alert_fields _ _ _).2.2.1).trans ((phone_alert_fields _ _).2.2.1)
      exact ⟨List.mem_append_left _ (List.mem_append_left _ (List.mem_singleton.mpr rfl)),
        by rw [hA, hauth], by rw [hF, hfaces]⟩



/-- C7: if less than `FACE_CHECK_INTERVAL` has elapsed since the last
face check, the result of `process_frame` does not depend on the face
model's output (the model is not consulted) and the cached `last_faces`
and `last_authorized` are unchanged; symmetrically for the phone model
under `PHONE_CHECK_INTERVAL` and `last_phone_present`. -/
theorem c7_caching (sqrt : ℚ → ℚ) (st : SessionState) (inp : FrameInput) :
    (inp.now - st.last_face_check_time < FACE_CHECK_INTERVAL →
      (∀ fr, process_frame sqrt st { inp with faceResult := fr } =
        process_frame sqrt st inp) ∧
      (process_frame sqrt st inp).2.last_faces = st.last_faces ∧
      (process_frame sqrt st inp).2.last_authorized = st.last_authorized) ∧
    (inp.now - st.last_phone_check_time < PHONE_CHECK_INTERVAL →
      (∀ pr, process_frame sqrt st { inp with phoneResult := pr } =
        process_frame sqrt st inp) ∧
      (process_frame sqrt st inp).2.last_phone_present = st.last_phone_present) := by
  constructor
  · intro hlt
    rcases (Bool.eq_false_or_eq_true inp.decode_ok).symm with hb | hb
    · have hpf : process_frame sqrt st inp = ([errorEvent "Invalid frame data."], st) :=
        process_frame_decode_fail sqrt st inp hb
      refine ⟨fun fr => ?_, by rw [hpf], by rw [hpf]⟩
      rw [process_frame_decode_fail sqrt st { inp with faceResult := fr } hb, hpf]
    · have hfs : ∀ fr' : Except Unit (List DetectedFace),
          face_section sqrt st inp.now fr' = .ok (st, []) :=
        fun fr' => face_section_skip sqrt st inp.now fr' hlt
      cases hps : phone_section st inp.now inp.phoneResult with
      | error st2 =>
        have h1 : process_frame sqrt st inp =
            ([errorEvent "An internal error occurred."], st2) :=
          process_frame_phone_error sqrt st inp st st2 [] hb (hfs _) hps
        obtain ⟨-, -, hlf, hla, -, -, -⟩ :=
          phone_section_error_fields st inp.now inp.phoneResult st2 hps
        refine ⟨fun fr => ?_, by rw [h1]; exact hlf, by rw [h1]; exact hla⟩
        rw [process_frame_phone_error sqrt st { inp with faceResult := fr }
          st st2 [] hb (hfs _) hps, h1]
      | ok st2 =>
        have h1 := process_frame_decomp sqrt st inp st st2 [] hb (hfs _) hps
        obtain ⟨-, -, hlf, hla, -, -⟩ :=
          phone_section_fields st inp.now inp.phoneResult st2 hps
        have hF : ((distraction_alert (phone_alert st2 inp.now).1 inp.now
            (attention_score (phone_alert st2 inp.now).1)).1).last_faces
              = st2.last_faces :=
          ((distraction_alert_fields _ _ _).2.2.1).trans ((phone_alert_fields _ _).2.2.1)
        have hA : ((distraction_alert (phone_alert st2 inp.now).1 inp.now
            (attention_score (phone_alert st2 inp.now).1)).1).last_authorized
              = st2.last_authorized :=
          ((distraction_alert_fields _ _ _).2.2.2.1).trans ((phone_alert_fields _ _).2.2.2.1)
        refine ⟨fun fr => ?_, by rw [h1]; rw [hF]; exact hlf,
          by rw [h1]; rw [hA]; exact hla⟩
        rw [process_frame_decomp sqrt st { inp with faceResult := fr }
          st st2 [] hb (hfs _) hps, h1]
  · intro hlt
    rcases (Bool.eq_false_or_eq_true inp.decode_ok).symm with hb | hb
    · have hpf : process_frame sqrt st inp = ([errorEvent "Invalid frame data."], st) :=
        process_frame_decode_fail sqrt st inp hb
      refine ⟨fun pr => ?_, by rw [hpf]⟩
      rw [process_frame_decode_fail sqrt st { inp with phoneResult := pr } hb, hpf]
    · cases hfc : face_section sqrt st inp.now inp.faceResult with
      | error st1 =>
        have h1 : process_frame sqrt st inp =
            ([errorEvent "An internal error occurred."], st1) :=
          process_frame_face_error sqrt st inp st1 hb hfc
        obtain ⟨-, -, -, hpp, -, -⟩ :=
          face_section_error_fields sqrt st inp.now inp.faceResult st1 hfc
        refine ⟨fun pr => ?_, by rw [h1]; exact hpp⟩
        rw [process_frame_face_error sqrt st { inp with phoneResult := pr } st1 hb hfc, h1]
      | ok p =>
        obtain ⟨st1, evs1⟩ := p
        obtain ⟨-, hlpc, hlpp, -, -⟩ :=
          face_section_fields sqrt st inp.now inp.faceResult st1 evs1 hfc
        have hlt1 : inp.now - st1.last_phone_check_time < PHONE_CHECK_INTERVAL := by
          rw [hlpc]; exact hlt
        have hskip : ∀ pr' : Except Unit Bool,
            phone_section st1 inp.now pr' = .ok st1 :=
          fun pr' => phone_section_skip st1 inp.now pr' hlt1
        have h1 := process_frame_decomp sqrt st inp st1 st1 evs1 hb hfc (hskip _)
        have hP : ((distraction_alert (phone_alert st1 inp.now).1 inp.now
            (attention_score (phone_alert st1 inp.now).1)).1).last_phone_present
              = st1.last_phone_present :=
          ((distraction_alert_fields _ _ _).2.2.2.2.2.1).trans
            ((phone_alert_fields _ _).2.2.2.2.2.1)
        refine ⟨fun pr => ?_, by rw [h1]; rw [hP]; exact hlpp⟩
        rw [process_frame_decomp sqrt st { inp with phoneResult := pr }
          st1 st1 evs1 hb hfc (hskip _), h1]

/-- C9 (amended): every non-`ERROR` event returned by `process_frame`
carries a timestamp.  (The two `ERROR` events carry only a message and no
timestamp — see the counterexample.) -/
theorem c9_amended_timestamps (sqrt : ℚ → ℚ) (st : SessionState) (inp : FrameInput) :
    ∀ e ∈ (process_frame sqrt st inp).1, e.event ≠ "ERROR" → e.timestamp.isSome = true := by
  intro e he hne
  rcases (Bool.eq_false_or_eq_true inp.decode_ok).symm with hb | hb
  · rw [process_frame_decode_fail sqrt st inp hb] at he
    cases he with
    | head => exact absurd rfl hne
    | tail _ h2 => cases h2
  · cases hfc : face_section sqrt st inp.now inp.faceResult with
    | error st1 =>
      rw [process_frame_face_error sqrt st inp st1 hb hfc] at he
      cases he with
      | head => exact absurd rfl hne
      | tail _ h2 => cases h2
    | ok p =>
      obtain ⟨st1, evs1⟩ := p
      cases hps : phone_section st1 inp.now inp.phoneResult with
      | error st2 =>
        rw [process_frame_phone_error sqrt st inp st1 st2 evs1 hb hfc hps] at he
        cases he with
        | head => exact absurd rfl hne
        | tail _ h2 => cases h2
      | ok st2 =>
        rw [process_frame_decomp sqrt st inp st1 st2 evs1 hb hfc hps] at he
        rcases List.mem_append.mp he with h1 | h2
        · rcases List.mem_append.mp h1 with h0 | hp
          · have ht := (face_section_events sqrt st inp.now inp.faceResult st1 evs1 hfc e h0).2
            rw [ht]
            rfl
          · rw [phone_alert_events _ _ _ hp]
            rfl
        · rw [distraction_alert_events _ _ _ _ h2]
          rfl

lemma clamp_bounds (x c : ℚ) (hc : 0 < c) :
    0 ≤ max 0 (1 - |x| / c) ∧ max 0 (1 - |x| / c) ≤ 1 := by
  constructor
  · exact le_max_left 0 _
  · apply max_le
    · norm_num
    · nlinarith [abs_nonneg x, div_nonneg (abs_nonneg x) hc.le]

lemma head_expr_bounds (h v : ℚ) (c1 c2 : Prop) [Decidable c1] [Decidable c2]
    (hh0 : 0 ≤ h) (hh1 : h ≤ 1) (hv0 : 0 ≤ v) (hv1 : v ≤ 1) :
    0 ≤ (if c2 then
           min 1 ((if c1 then (h + v) / 2 * (3/10) else (h + v) / 2) * (12/10))
         else (if c1 then (h + v) / 2 * (3/10) else (h + v) / 2)) ∧
    (if c2 then
       min 1 ((if c1 then (h + v) / 2 * (3/10) else (h + v) / 2) * (12/10))
     else (if c1 then (h + v) / 2 * (3/10) else (h + v) / 2)) ≤ 1 := by
  have hb0 : 0 ≤ (h + v) / 2 := by linarith
  have hb1 : (h + v) / 2 ≤ 1 := by linarith
  have ha0 : 0 ≤ (if c1 then (h + v) / 2 * (3/10) else (h + v) / 2) := by
    split <;> nlinarith
  have ha1 : (if c1 then (h + v) / 2 * (3/10) else (h + v) / 2) ≤ 1 := by
    split <;> nlinarith
  constructor
  · split
    · exact le_min (by norm_num) (by nlinarith)
    · exact ha0
  · split
    · exact min_le_left _ _
    · exact ha1

lemma compute_head_score_bounds (f : DetectedFace) :
    0 ≤ compute_head_score f ∧ compute_head_score f ≤ 1 := by
  unfold compute_head_score
  cases hk : f.kps with
  | none => norm_num
  | some kps =>
    rcases kps with _ | ⟨le1, _ | ⟨re1, _ | ⟨no1, rest⟩⟩⟩
    · norm_num
    · norm_num
    · norm_num
    · dsimp only
      exact head_expr_bounds _ _ _ _
        (clamp_bounds _ _ (by norm_num)).1 (clamp_bounds _ _ (by norm_num)).2
        (clamp_bounds _ _ (by norm_num)).1 (clamp_bounds _ _ (by norm_num)).2

lemma attention_expr_le (fs hs pp : ℚ) (c : Prop) [Decidable c]
    (hfs0 : 0 ≤ fs) (hfs1 : fs ≤ 1) (hhs0 : 0 ≤ hs) (hhs1 : hs ≤ 1)
    (hpp0 : 0 ≤ 1 - pp) (hpp1 : 1 - pp ≤ 1) :
    (if c then
      min 100 ((W_FACE * fs + W_HEAD * hs + W_PHONE * (1 - pp)) /
        (W_FACE + W_HEAD + W_PHONE) * 100 * (11/10))
     else (W_FACE * fs + W_HEAD * hs + W_PHONE * (1 - pp)) /
        (W_FACE + W_HEAD + W_PHONE) * 100) ≤ 100 := by
  have hbase : (W_FACE * fs + W_HEAD * hs + W_PHONE * (1 - pp)) /
      (W_FACE + W_HEAD + W_PHONE) * 100 ≤ 100 := by
    unfold W_FACE W_HEAD W_PHONE
    nlinarith
  split
  · exact min_le_left _ _
  · exact hbase

/-- C8: with exactly one cached authorized face whose head score is 1 and
no phone present the attention score is exactly 100; the attention score
never exceeds 100 for any state (the high-head-score bonus is capped);
and without exactly one authorized cached face the attention score is
0. -/
theorem c8_attention_formula :
    (∀ (st : SessionState) (f : DetectedFace), st.last_faces = [f] →
      st.last_authorized = true → compute_head_score f = 1 →
      st.last_phone_present = false → attention_score st = 100) ∧
    (∀ st : SessionState, attention_score st ≤ 100) ∧
    (∀ st : SessionState, ¬(st.last_faces.length = 1 ∧ st.last_authorized = true) →
      attention_score st = 0) := by
  refine ⟨?_, ?_, ?_⟩
  · intro st f h1 h2 h3 h4
    unfold attention_score
    rw [h1, h2, h4]
    dsimp only
    rw [h3]
    norm_num [W_FACE, W_HEAD, W_PHONE, min_def]
  · intro st
    unfold attention_score
    cases hl : st.last_faces with
    | nil =>
      dsimp only
      norm_num
    | cons f rest =>
      dsimp only
      split
      · norm_num
      · exact attention_expr_le _ _ _ _
          (by split <;> norm_num) (by split <;> norm_num)
          (by split
              · exact (compute_head_score_bounds f).1
              · norm_num)
          (by split
              · exact (compute_head_score_bounds f).2
              · norm_num)
          (by split <;> norm_num) (by split <;> norm_num)
  · intro st h
    unfold attention_score
    dsimp only
    rw [if_pos (not_and_or.mp h)]

lemma phone_alert_arm (st : SessionState) (now : ℚ)
    (h1 : st.last_phone_present = true) (h2 : st.phone_presence_start_time = none) :
    phone_alert st now = ({ st with phone_presence_start_time := some now }, []) := by
  unfold phone_alert
  rw [h1, h2]
  rfl

lemma phone_alert_alerting (st : SessionState) (now t0 : ℚ)
    (h1 : st.last_phone_present = true) (h2 : st.phone_presence_start_time = some t0)
    (h3 : now - t0 ≥ PHONE_ALERT_SECONDS) :
    phone_alert st now = (st, [phoneDetectedEvent now]) := by
  unfold phone_alert
  rw [h1, h2]
  simp only [ge_iff_le, if_pos h3]
  rfl

lemma phone_alert_waiting (st : SessionState) (now t0 : ℚ)
    (h1 : st.last_phone_present = true) (h2 : st.phone_presence_start_time = some t0)
    (h3 : ¬(now - t0 ≥ PHONE_ALERT_SECONDS)) :
    phone_alert st now = (st, []) := by
  unfold phone_alert
  rw [h1, h2]
  simp only [ge_iff_le, if_neg h3]
  rfl

lemma phone_alert_absent (st : SessionState) (now : ℚ)
    (h1 : st.last_phone_present = false) :
    phone_alert st now = ({ st with phone_presence_start_time := none }, []) := by
  unfold phone_alert
  rw [h1]
  rfl

lemma distraction_alert_arm (st : SessionState) (now att : ℚ)
    (h1 : att < FOCUS_THRESHOLD ∧ st.last_authorized = true)
    (h2 : st.distracted_start_time = none) :
    distraction_alert st now att = ({ st with distracted_start_time := some now }, []) := by
  unfold distraction_alert
  rw [if_pos h1, h2]

lemma distraction_alert_alerting (st : SessionState) (now att t0 : ℚ)
    (h1 : att < FOCUS_THRESHOLD ∧ st.last_authorized = true)
    (h2 : st.distracted_start_time = some t0)
    (h3 : now - t0 ≥ FOCUS_ALERT_TIME) :
    distraction_alert st now att = (st, [lookingAwayEvent (int_trunc att) now]) := by
  unfold distraction_alert
  rw [if_pos h1, h2]
  simp only [ge_iff_le, if_pos h3]

lemma distraction_alert_waiting (st : SessionState) (now att t0 : ℚ)
    (h1 : att < FOCUS_THRESHOLD ∧ st.last_authorized = true)
    (h2 : st.distracted_start_time = some t0)
    (h3 : ¬(now - t0 ≥ FOCUS_ALERT_TIME)) :
    distraction_alert st now att = (st, []) := by
  unfold distraction_alert
  rw [if_pos h1, h2]
  simp only [ge_iff_le, if_neg h3]

lemma distraction_alert_reset (st : SessionState) (now att : ℚ)
    (h1 : ¬(att < FOCUS_THRESHOLD ∧ st.last_authorized = true)) :
    distraction_alert st now att = ({ st with distracted_start_time := none }, []) := by
  unfold distraction_alert
  rw [if_neg h1]

lemma phone_event_not_in_face_events (sqrt : ℚ → ℚ) (st : SessionState) (now : ℚ)
    (fr : Except Unit (List DetectedFace)) (st1 : SessionState) (evs1 : List Event)
    (hfc : face_section sqrt st now fr = .ok (st1, evs1)) (t : ℚ) :
    phoneDetectedEvent t ∉ evs1 := by
  intro hm
  rcases (face_section_events sqrt st now fr st1 evs1 hfc _ hm).1 with h | h | h
  · exact absurd (show ("PHONE_DETECTED" : String) = "FACE_NOT_FOUND" from h) (by decide)
  · exact absurd (show ("PHONE_DETECTED" : String) = "MULTIPLE_FACES" from h) (by decide)
  · exact absurd (show ("PHONE_DETECTED" : String) = "UNAUTHORIZED_PERSON" from h) (by decide)

lemma looking_event_not_in_face_events (sqrt : ℚ → ℚ) (st : SessionState) (now : ℚ)
    (fr : Except Unit (List DetectedFace)) (st1 : SessionState) (evs1 : List Event)
    (hfc : face_section sqrt st now fr = .ok (st1, evs1)) (s : Int) (t : ℚ) :
    lookingAwayEvent s t ∉ evs1 := by
  intro hm
  rcases (face_section_events sqrt st now fr st1 evs1 hfc _ hm).1 with h | h | h
  · exact absurd (show ("LOOKING_AWAY" : String) = "FACE_NOT_FOUND" from h) (by decide)
  · exact absurd (show ("LOOKING_AWAY" : String) = "MULTIPLE_FACES" from h) (by decide)
  · exact absurd (show ("LOOKING_AWAY" : String) = "UNAUTHORIZED_PERSON" from h) (by decide)

lemma phone_event_not_in_distraction_events (st : SessionState) (now att t : ℚ) :
    phoneDetectedEvent t ∉ (distraction_alert st now att).2 := by
  intro hm
  exact absurd
    (show ("PHONE_DETECTED" : String) = "LOOKING_AWAY" from
      distraction_alert_event_kind st now att _ hm) (by decide)

lemma looking_event_not_in_phone_events (st : SessionState) (now : ℚ) (s : Int) (t : ℚ) :
    lookingAwayEvent s t ∉ (phone_alert st now).2 := by
  intro hm
  exact absurd
    (show ("LOOKING_AWAY" : String) = "PHONE_DETECTED" from
      phone_alert_event_kind st now _ hm) (by decide)

/-- C3: phone hysteresis of `process_frame`.  Writing `cached` for the
phone state used this frame (the refreshed value if the phone interval
elapsed, else the cache): if `cached` is present and no start time is
recorded, the start time becomes `now` and no `PHONE_DETECTED` is emitted
this frame; if `cached` is present and a start time `t0` is recorded,
`PHONE_DETECTED` is emitted exactly when `now - t0 ≥ PHONE_ALERT_SECONDS`
(hence on every such frame); if `cached` is absent the start time is reset
to `none`. -/
theorem c3_phone_hysteresis (sqrt : ℚ → ℚ) (st : SessionState) (inp : FrameInput)
    (st1 : SessionState) (evs1 : List Event) (pb : Bool)
    (hdec : inp.decode_ok = true)
    (hface : face_section sqrt st inp.now inp.faceResult = .ok (st1, evs1))
    (hphone : inp.phoneResult = .ok pb) :
    (((if inp.now - st1.last_phone_check_time ≥ PHONE_CHECK_INTERVAL
        then pb else st1.last_phone_present) = true) →
      st.phone_presence_start_time = none →
      (process_frame sqrt st inp).2.phone_presence_start_time = some inp.now ∧
      phoneDetectedEvent inp.now ∉ (process_frame sqrt st inp).1) ∧
    (((if inp.now - st1.last_phone_check_time ≥ PHONE_CHECK_INTERVAL
        then pb else st1.last_phone_present) = true) →
      ∀ t0 : ℚ, st.phone_presence_start_time = some t0 →
      (inp.now - t0 ≥ PHONE_ALERT_SECONDS ↔
        phoneDetectedEvent inp.now ∈ (process_frame sqrt st inp).1)) ∧
    (((if inp.now - st1.last_phone_check_time ≥ PHONE_CHECK_INTERVAL
        then pb else st1.last_phone_present) = false) →
      (process_frame sqrt st inp).2.phone_presence_start_time = none) := by
  obtain ⟨st2, hauth, hfaces, hstart, hdstart, hpp, hrun⟩ :=
    process_frame_run sqrt st inp st1 evs1 pb hdec hface hphone
  have hpps1 : st1.phone_presence_start_time = st.phone_presence_start_time :=
    (face_section_fields sqrt st inp.now inp.faceResult st1 evs1 hface).2.2.2.1
  refine ⟨?_, ?_, ?_⟩
  · intro hc hnone
    have hpp2 : st2.last_phone_present = true := hpp.trans hc
    have hpps2 : st2.phone_presence_start_time = none :=
      hstart.trans (hpps1.trans hnone)
    have hpa := phone_alert_arm st2 inp.now hpp2 hpps2
    rw [hrun, hpa]
    constructor
    · exact (distraction_alert_fields _ _ _).2.2.2.2.2.2
    · intro hm
      rcases List.mem_append.mp hm with h1 | h2
      · rcases List.mem_append.mp h1 with h0 | hcent
        · exact phone_event_not_in_face_events sqrt st inp.now inp.faceResult
            st1 evs1 hface inp.now h0
        · cases hcent
      · exact phone_event_not_in_distraction_events _ _ _ _ h2
  · intro hc t0 hsome
    have hpp2 : st2.last_phone_present = true := hpp.trans hc
    have hpps2 : st2.phone_presence_start_time = some t0 :=
      hstart.trans (hpps1.trans hsome)
    by_cases hd : inp.now - t0 ≥ PHONE_ALERT_SECONDS
    · have hpa := phone_alert_alerting st2 inp.now t0 hpp2 hpps2 hd
      rw [hrun, hpa]
      refine iff_of_true hd ?_
      exact List.mem_append_left _ (List.mem_append_right _ (List.mem_singleton.mpr rfl))
    · have hpa := phone_alert_waiting st2 inp.now t0 hpp2 hpps2 hd
      rw [hrun, hpa]
      refine iff_of_false hd ?_
      intro hm
      rcases List.mem_append.mp hm with h1 | h2
      · rcases List.mem_append.mp h1 with h0 | hcent
        · exact phone_event_not_in_face_events sqrt st inp.now inp.faceResult
            st1 evs1 hface inp.now h0
        · cases hcent
      · exact phone_event_not_in_distraction_events _ _ _ _ h2
  · intro hc
    have hpp2 : st2.last_phone_present = false := hpp.trans hc
    have hpa := phone_alert_absent st2 inp.now hpp2
    rw [hrun, hpa]
    exact (distraction_alert_fields _ _ _).2.2.2.2.2.2

/-- C4: distraction hysteresis of `process_frame`.  With `att` the
attention score computed from the frame's cached faces, authorization and
phone state: when `att < FOCUS_THRESHOLD` and the person is authorized,
the distracted start time is armed to `now` if unset (with no
`LOOKING_AWAY` emitted that frame), and with a recorded start `t0` a
`LOOKING_AWAY` event carrying `int_trunc att` is emitted exactly when
`now - t0 ≥ FOCUS_ALERT_TIME`; otherwise (unauthorized or score not below
threshold) the start time is reset to `none`. -/
theorem c4_distraction_hysteresis (sqrt : ℚ → ℚ) (st : SessionState) (inp : FrameInput)
    (st1 : SessionState) (evs1 : List Event) (pb : Bool)
    (hdec : inp.decode_ok = true)
    (hface : face_section sqrt st inp.now inp.faceResult = .ok (st1, evs1))
    (hphone : inp.phoneResult = .ok pb) :
    ((attention_score { st1 with last_phone_present :=
          if inp.now - st1.last_phone_check_time ≥ PHONE_CHECK_INTERVAL
          then pb else st1.last_phone_present } < FOCUS_THRESHOLD ∧
        st1.last_authorized = true) →
      (st.distracted_start_time = none →
        (process_frame sqrt st inp).2.distracted_start_time = some inp.now ∧
        ∀ s : Int, lookingAwayEvent s inp.now ∉ (process_frame sqrt st inp).1) ∧
      (∀ t0 : ℚ, st.distracted_start_time = some t0 →
        (inp.now - t0 ≥ FOCUS_ALERT_TIME ↔
          lookingAwayEvent (int_trunc (attention_score { st1 with last_phone_present :=
              if inp.now - st1.last_phone_check_time ≥ PHONE_CHECK_INTERVAL
              then pb else st1.last_phone_present })) inp.now ∈
            (process_frame sqrt st inp).1))) ∧
    (¬(attention_score { st1 with last_phone_present :=
          if inp.now - st1.last_phone_check_time ≥ PHONE_CHECK_INTERVAL
          then pb else st1.last_phone_present } < FOCUS_THRESHOLD ∧
        st1.last_authorized = true) →
      (process_frame sqrt st inp).2.distracted_start_time = none) := by
  obtain ⟨st2, hauth, hfaces, hstart, hdstart, hpp, hrun⟩ :=
    process_frame_run sqrt st inp st1 evs1 pb hdec hface hphone
  have hdst1 : st1.distracted_start_time = st.distracted_start_time :=
    (face_section_fields sqrt st inp.now inp.faceResult st1 evs1 hface).2.2.2.2
  have hauthc : (phone_alert st2 inp.now).1.last_authorized = st1.last_authorized :=
    ((phone_alert_fields st2 inp.now).2.2.2.1).trans hauth
  have hdstc : (phone_alert st2 inp.now).1.distracted_start_time = st.distracted_start_time :=
    ((phone_alert_fields st2 inp.now).2.2.2.2.2.2).trans (hdstart.trans hdst1)
  have haeq : attention_score (phone_alert st2 inp.now).1 =
      attention_score { st1 with last_phone_present :=
        if inp.now - st1.last_phone_check_time ≥ PHONE_CHECK_INTERVAL
        then pb else st1.last_phone_present } :=
    attention_score_congr _ _
      (((phone_alert_fields st2 inp.now).2.2.1).trans hfaces)
      (((phone_alert_fields st2 inp.now).2.2.2.1).trans hauth)
      (((phone_alert_fields st2 inp.now).2.2.2.2.2.1).trans hpp)
  rw [haeq] at hrun
  refine ⟨?_, ?_⟩
  · intro hcond
    constructor
    · intro hnone
      have hda := distraction_alert_arm (phone_alert st2 inp.now).1 inp.now _
        ⟨hcond.1, hauthc.trans hcond.2⟩ (hdstc.trans hnone)
      rw [hrun, hda]
      constructor
      · rfl
      · intro s hm
        rcases List.mem_append.mp hm with h1 | h2
        · rcases List.mem_append.mp h1 with h0 | hpe
          · exact looking_event_not_in_face_events sqrt st inp.now inp.faceResult
              st1 evs1 hface s inp.now h0
          · exact looking_event_not_in_phone_events st2 inp.now s inp.now hpe
        · cases h2
    · intro t0 hsome
      by_cases hd : inp.now - t0 ≥ FOCUS_ALERT_TIME
      · have hda := distraction_alert_alerting (phone_alert st2 inp.now).1 inp.now _ t0
          ⟨hcond.1, hauthc.trans hcond.2⟩ (hdstc.trans hsome) hd
        rw [hrun, hda]
        refine iff_of_true hd ?_
        exact List.mem_append_right _ (List.mem_singleton.mpr rfl)
      · have hda := distraction_alert_waiting (phone_alert st2 inp.now).1 inp.now _ t0
          ⟨hcond.1, hauthc.trans hcond.2⟩ (hdstc.trans hsome) hd
        rw [hrun, hda]
        refine iff_of_false hd ?_
        intro hm
        rcases List.mem_append.mp hm with h1 | h2
        · rcases List.mem_append.mp h1 with h0 | hpe
          · exact looking_event_not_in_face_events sqrt st inp.now inp.faceResult
              st1 evs1 hface _ inp.now h0
          · exact looking_event_not_in_phone_events st2 inp.now _ inp.now hpe
        · cases h2
  · intro hncond
    have hda := distraction_alert_reset (phone_alert st2 inp.now).1 inp.now _
      (fun hcc => hncond ⟨hcc.1, hauthc.symm.trans hcc.2⟩)
    rw [hrun, hda]

/-- Witness for C4: low attention while authorized past the focus-alert
duration emits `LOOKING_AWAY` with the truncated score 50. -/
theorem c4_witness :
    lookingAwayEvent 50 11 ∈ (process_frame id_sqrt distractedState laterFrame).1 := by
  have hface := face_section_skip id_sqrt distractedState laterFrame.now laterFrame.faceResult
    (by norm_num [laterFrame, distractedState, registeredState, FACE_CHECK_INTERVAL])
  have hatt : attention_score { distractedState with last_phone_present :=
      if laterFrame.now - distractedState.last_phone_check_time ≥ PHONE_CHECK_INTERVAL
      then false else distractedState.last_phone_present } = 50 := by
    norm_num [attention_score, compute_head_score, distractedState, distractedFace,
      registeredState, laterFrame, W_FACE, W_HEAD, W_PHONE, PHONE_CHECK_INTERVAL,
      max_def, min_def, abs]
  have h := ((c4_distraction_hysteresis id_sqrt distractedState laterFrame
    distractedState [] false rfl hface rfl).1
    (⟨by rw [hatt]; norm_num [FOCUS_THRESHOLD], rfl⟩)).2 5 rfl
  have hm := h.mp (by norm_num [laterFrame, FOCUS_ALERT_TIME])
  rw [hatt] at hm
  have ht : int_trunc 50 = 50 := by norm_num [int_trunc]
  rw [ht] at hm
  exact hm

/-- Witness for C1 at a concrete registered session and single-face frame. -/
theorem c1_witness :
    (process_frame id_sqrt registeredState okFrame).2.last_authorized = true ↔
      AUTHORIZED_THRESHOLD < cosine_sim id_sqrt [1] centeredFace.embedding :=
  (c1_authorization_threshold id_sqrt registeredState okFrame centeredFace [1] false
    rfl (by norm_num [okFrame, registeredState, FACE_CHECK_INTERVAL]) rfl rfl rfl).1

/-- Witness for C2 (amended) at a concrete decode-failure frame. -/
theorem c2_witness :
    process_frame id_sqrt registeredState badDecodeFrame =
      ([errorEvent "Invalid frame data."], registeredState) :=
  (c2_amended_error_events id_sqrt registeredState badDecodeFrame).1 rfl

/-- C2 counterexample: with the face-check interval elapsed and the face
model raising, `process_frame` returns the single `ERROR` event but
`last_face_check_time` has changed from 0 to 10 — the claimed "no partial
updates" is false. -/
theorem c2_counterexample_partial_update :
    (process_frame id_sqrt registeredState faceFailFrame).1 =
      [errorEvent "An internal error occurred."] ∧
    (process_frame id_sqrt registeredState faceFailFrame).2.last_face_check_time = 10 ∧
    registeredState.last_face_check_time = 0 := by
  have hfs := face_section_model_error id_sqrt registeredState faceFailFrame.now ()
    (by norm_num [faceFailFrame, registeredState, FACE_CHECK_INTERVAL])
  have h := process_frame_face_error id_sqrt registeredState faceFailFrame _ rfl hfs
  rw [h]
  exact ⟨rfl, rfl, rfl⟩

/-- Witness for C3: phone cached-present with an armed timer emits
`PHONE_DETECTED`. -/
theorem c3_witness :
    phoneDetectedEvent 11 ∈ (process_frame id_sqrt phoneArmedState laterFrame).1 :=
  ((c3_phone_hysteresis id_sqrt phoneArmedState laterFrame phoneArmedState [] false
    rfl
    (face_section_skip id_sqrt phoneArmedState laterFrame.now laterFrame.faceResult
      (by norm_num [laterFrame, phoneArmedState, registeredState, FACE_CHECK_INTERVAL]))
    rfl).2.1
    (by norm_num [laterFrame, phoneArmedState, registeredState, PHONE_CHECK_INTERVAL])
    10 rfl).mp
    (by norm_num [laterFrame, PHONE_ALERT_SECONDS])

/-- Witness for C5 at a concrete already-registered session. -/
theorem c5_witness :
    register_user_from_frame registeredState regFrame =
      ((false, "User is already registered."), registeredState) :=
  c5_register_already_registered registeredState regFrame [1] rfl

/-- Witness for C6: a refresh yielding zero faces emits `FACE_NOT_FOUND`. -/
theorem c6_witness :
    faceNotFoundEvent 10 ∈ (process_frame id_sqrt registeredState noFaceFrame).1 :=
  ((c6_face_refresh_zero_or_many id_sqrt registeredState noFaceFrame [] false
    rfl (by norm_num [noFaceFrame, registeredState, FACE_CHECK_INTERVAL]) rfl rfl).1 rfl).1

/-- Witness for C7: a frame inside the face-check interval keeps
`last_faces`. -/
theorem c7_witness :
    (process_frame id_sqrt phoneArmedState laterFrame).2.last_faces =
      phoneArmedState.last_faces :=
  ((c7_caching id_sqrt phoneArmedState laterFrame).1
    (by norm_num [laterFrame, phoneArmedState, registeredState, FACE_CHECK_INTERVAL])).2.1

/-- Witness for C8: the concrete centered face yields attention exactly
100. -/
theorem c8_witness : attention_score registeredState = 100 :=
  c8_attention_formula.1 registeredState centeredFace rfl rfl
    (by norm_num [compute_head_score, centeredFace, max_def, min_def])
    rfl

/-- Witness for C9 (amended): the `FACE_NOT_FOUND` event of a concrete
frame carries a timestamp. -/
theorem c9_witness : (faceNotFoundEvent 10).timestamp.isSome = true := by
  have hfs := face_section_no_faces id_sqrt registeredState (10 : ℚ)
    (by norm_num [registeredState, FACE_CHECK_INTERVAL])
  obtain ⟨st2, -, -, -, -, -, hrun⟩ :=
    process_frame_run id_sqrt registeredState noFaceFrame _ _ false rfl hfs rfl
  exact c9_amended_timestamps id_sqrt registeredState noFaceFrame (faceNotFoundEvent 10)
    (by rw [hrun]
        exact List.mem_append_left _ (List.mem_append_left _ (List.Mem.head _)))
    (by simp [faceNotFoundEvent])

/-- C9 counterexample: a decode failure returns an `ERROR` event whose
timestamp field is absent, refuting the claim that every event record
carries a timestamp. -/
theorem c9_counterexample_error_no_timestamp :
    ∃ e ∈ (process_frame id_sqrt registeredState badDecodeFrame).1, e.timestamp = none := by
  have h := process_frame_decode_fail id_sqrt registeredState badDecodeFrame rfl
  exact ⟨errorEvent "Invalid frame data.", by rw [h]; exact List.Mem.head _, rfl⟩

/-- Witness for C10 at a concrete unregistered session. -/
theorem c10_witness :
    (process_frame id_sqrt unregisteredState okFrame).1 =
      [errorEvent "An internal error occurred."] :=
  c10_unregistered_single_face_error id_sqrt unregisteredState okFrame centeredFace
    rfl rfl (by norm_num [okFrame, unregisteredState, registeredState, FACE_CHECK_INTERVAL]) rfl

end Proctoring
